import Mathlib

/-!
Zork++ project template: `main.cpp`

A shallow embedding of `zork++/src/lib/utils/template/resources/main.cpp`.

The translation unit has two parts:

* a preprocessor conditional (`#if` / `#elif` / `#elif` / `#endif`) that supplies the
  initialiser of the global `compiler` together with one import directive;
* the function `main`, a straight-line sequence of insertions into `std::cout`.

The conditional is embedded as data (conditions are expression trees over `defined(...)`,
bodies are the initialiser literal and the directives of the group) with the evaluation rule of
the C++ preprocessor.  `main` is embedded in state-passing style over a `World` holding the
global `compiler`, the characters written to `std::cout`, and a log of the calls made into the
`math` module.
-/

namespace Zork

/-! ## The preprocessor conditional (source lines 1-11) -/

/-- The four predefined macros the conditional tests. -/
inductive Macro where
  | __clang__
  | __GNUC__
  | __GNUG__
  | _MSC_VER
  deriving DecidableEq, Fintype

/-- A macro configuration: which of the four macros the toolchain defines. -/
structure Config where
  clang : Bool
  gnuc : Bool
  gnug : Bool
  msc_ver : Bool
  deriving DecidableEq

/-- Whether a macro is defined in a configuration: the operator `defined(...)`. -/
def Config.isDefined (k : Config) : Macro → Bool
  | .__clang__ => k.clang
  | .__GNUC__ => k.gnuc
  | .__GNUG__ => k.gnug
  | ._MSC_VER => k.msc_ver

/-- Controlling expressions of `#if` / `#elif`, as far as the source uses them. -/
inductive Cond where
  | defined (m : Macro)
  | or (a b : Cond)
  | and (a b : Cond)
  | not (a : Cond)
  deriving DecidableEq

/-- Value of a controlling expression in a configuration. -/
def Cond.eval (k : Config) : Cond → Bool
  | .defined m => k.isDefined m
  | .or a b => a.eval k || b.eval k
  | .and a b => a.eval k && b.eval k
  | .not a => !(a.eval k)

/-- An import directive of the translation unit. -/
inductive Import where
  /-- The directive `import std;`, the whole standard library as a named module. -/
  | stdModule
  /-- The directive `import <iostream>;`, the console-output header. -/
  | iostreamHeader
  deriving DecidableEq

/-- The text a branch of the conditional contributes: the string literal that completes
`const char* compiler =`, and the import directives that follow it. -/
structure Body where
  literal : String
  imports : List Import
  deriving DecidableEq

/-- One `#if` / `#elif` group: its controlling expression and its body. -/
structure Branch where
  cond : Cond
  body : Body
  deriving DecidableEq

/-- Line 2: `#if defined(__clang__)`, lines 3-4. -/
def clangBranch : Branch :=
  { cond := .defined .__clang__
    body := { literal := "Clang", imports := [.stdModule] } }

/-- Line 5: `#elif (defined(__GNUC__) || defined(__GNUG__)) && !defined(__clang__)`,
lines 6-7. -/
def gccBranch : Branch :=
  { cond := .and (.or (.defined .__GNUC__) (.defined .__GNUG__)) (.not (.defined .__clang__))
    body := { literal := "GCC", imports := [.iostreamHeader] } }

/-- Line 8: `#elif defined(_MSC_VER)`, lines 9-10. -/
def msvcBranch : Branch :=
  { cond := .defined ._MSC_VER
    body := { literal := "MSVC", imports := [.stdModule] } }

/-- The conditional of lines 2-11, in source order.  It has no `#else` group. -/
def compilerProbe : List Branch := [clangBranch, gccBranch, msvcBranch]

/-- Preprocessor rule for a conditional: groups are tested in order, a group is processed when
its controlling expression is true and no earlier group was processed.  `done` says that an
earlier group was processed.  The result flags, per group, whether it is processed. -/
def processedFrom (k : Config) : Bool → List Branch → List Bool
  | _, [] => []
  | done, b :: bs =>
    let take := !done && b.cond.eval k
    take :: processedFrom k (done || take) bs

/-- Which groups of a conditional the preprocessor processes. -/
def processed (k : Config) (bs : List Branch) : List Bool :=
  processedFrom k false bs

/-- The bodies of the processed groups, in source order. -/
def emitted (k : Config) (bs : List Branch) : List Body :=
  ((bs.zip (processed k bs)).filter (fun x => x.2)).map (fun x => x.1.body)

/-- The number of groups of `compilerProbe` selected in a configuration. -/
def selectedCount (k : Config) : Nat :=
  (emitted k compilerProbe).length

/-- The value the global `compiler` is initialised with: the literal of the processed group.
With no processed group the declaration `const char* compiler =` has no initialiser and
`compiler` has no identity. -/
def identity (k : Config) : Option String :=
  ((emitted k compilerProbe).head?).map Body.literal

/-- The import directives lines 2-11 leave in the translation unit. -/
def importDirectives (k : Config) : List Import :=
  ((emitted k compilerProbe).map Body.imports).flatten

/-- The configuration of a Clang front end in MSVC-compatible mode: both `__clang__` and
`_MSC_VER` are defined. -/
def clangCl : Config :=
  { clang := true, gnuc := false, gnug := false, msc_ver := true }

/-! ## The imported modules (lines 13-14) -/

/-- The interface of `import math;` as `main` uses it: four functions on `int`. -/
structure MathModule where
  sum : Int → Int → Int
  subtract : Int → Int → Int
  multiply : Int → Int → Int
  divide : Int → Int → Int

/-- Modelled from the spec: the module `math` (its source is not part of `main.cpp`), whose
operations are integer `+`, `-`, `*` and truncating `/`. -/
def math : MathModule :=
  { sum := fun a b => a + b
    subtract := fun a b => a - b
    multiply := fun a b => a * b
    divide := fun a b => Int.tdiv a b }

/-- Modelled from the spec: the export `just_a_42` of the module `partitions` (its source is
not part of `main.cpp`), which returns the literal `42`. -/
def just_a_42 : Unit → Int := fun _ => 42

/-! ## The program state -/

/-- The operations of the `math` module. -/
inductive MathOp where
  | sum
  | subtract
  | multiply
  | divide
  deriving DecidableEq

/-- One call into the `math` module: the operation and its two arguments. -/
structure Call where
  op : MathOp
  a : Int
  b : Int
  deriving DecidableEq

/-- What `main` can read or change: the global `compiler`, the characters written so far to
`std::cout`, and the calls made so far into `math`. -/
structure World where
  compiler : String
  cout : String
  calls : List Call

/-- The insertion `std::cout << s` for a C string. -/
def World.put (w : World) (s : String) : World :=
  { w with cout := w.cout ++ s }

/-- The insertion `std::cout << n` for an `int`: its decimal representation. -/
def World.putInt (w : World) (n : Int) : World :=
  { w with cout := w.cout ++ toString n }

/-- The insertion `std::cout << std::endl`: a newline (and a flush). -/
def World.endl (w : World) : World :=
  { w with cout := w.cout ++ "\n" }

/-- A call `math::op(a, b)`: the call is logged and the value of the module's function
returned. -/
def World.call (w : World) (m : MathModule) (op : MathOp) (a b : Int) : Int × World :=
  let v := match op with
    | .sum => m.sum a b
    | .subtract => m.subtract a b
    | .multiply => m.multiply a b
    | .divide => m.divide a b
  (v, { w with calls := w.calls ++ [{ op := op, a := a, b := b }] })

/-! ## `main` (source lines 16-28) -/

/-- The function `main`, statement by statement; an insertion chain is evaluated left to
right.  Returns the exit status and the final state. -/
def main (m : MathModule) (p : Unit → Int) (w : World) : Int × World :=
  -- line 17
  let w := (w.put "\nHello from an autogenerated Zork project!").endl
  -- line 18
  let w := (((w.put "The program is running with: ").put w.compiler).endl).endl
  -- line 19
  let w := w.put "RESULT of 2 + 8 = "
  let (v, w) := w.call m .sum 2 8
  let w := (w.putInt v).endl
  -- line 20
  let w := w.put "RESULT of 8 - 2 = "
  let (v, w) := w.call m .subtract 8 2
  let w := (w.putInt v).endl
  -- line 21
  let w := w.put "RESULT of 2 * 8 = "
  let (v, w) := w.call m .multiply 2 8
  let w := (w.putInt v).endl
  -- line 22
  let w := w.put "RESULT of 2 / 2 = "
  let (v, w) := w.call m .divide 2 2
  let w := ((w.putInt v).endl).endl
  -- lines 24-25
  let w := w.put "Testing interface module partitions, by just returning the number: "
  let w := (w.putInt (p ())).endl
  -- line 27
  (0, w)

/-- The state in which `main` starts when the global `compiler` holds `c`: nothing written,
no call made. -/
def World.start (c : String) : World :=
  { compiler := c, cout := "", calls := [] }

/-- The text a run of `main` writes to standard output when `compiler` holds `c`. -/
def output (m : MathModule) (p : Unit → Int) (c : String) : String :=
  (main m p (World.start c)).2.cout

/-- The calls of `math::divide` made by a run of `main`. -/
def divideCalls (m : MathModule) (p : Unit → Int) (c : String) : List Call :=
  (main m p (World.start c)).2.calls.filter (fun e => e.op = MathOp.divide)

/-! ## Lines of a text -/

/-- Splits a text into its lines: a line ends at each newline character; characters after the
last newline form a last, unterminated line.  `cur` holds the current line, reversed. -/
def splitLines : List Char → List Char → List String
  | [], [] => []
  | [], cur => [String.mk cur.reverse]
  | c :: cs, cur =>
    if c = '\n' then String.mk cur.reverse :: splitLines cs []
    else splitLines cs (c :: cur)

/-- The lines of a text. -/
def lines (s : String) : List String :=
  splitLines s.data []

/-- The text made of the given lines, each terminated by a newline. -/
def unlines : List String → String
  | [] => ""
  | l :: ls => l ++ "\n" ++ unlines ls

/-- The content lines of a text: its non-empty lines. -/
def contentLines (s : String) : List String :=
  (lines s).filter (fun l => l ≠ "")

/-- The blank lines of a text: its empty lines. -/
def blankLines (s : String) : List String :=
  (lines s).filter (fun l => l = "")

/-- The positions (from 0) of the blank lines of a text. -/
def blankPositions (s : String) : List Nat :=
  ((lines s).enum.filter (fun x => x.2 = "")).map (fun x => x.1)


/-! ## Auxiliary facts: decimal representations, lines -/

theorem ite_ne_of {α : Type} (c : Prop) [Decidable c] (a b x : α) (ha : a ≠ x) (hb : b ≠ x) :
    (if c then a else b) ≠ x := by
  split <;> assumption

theorem digitChar_ne_newline (n : Nat) : Nat.digitChar n ≠ '\n' := by
  unfold Nat.digitChar
  repeat (refine ite_ne_of _ _ _ _ (by decide) ?_)
  decide

theorem toDigitsCore_no_newline (fuel : Nat) :
    ∀ (n : Nat) (ds : List Char), '\n' ∉ ds → '\n' ∉ Nat.toDigitsCore 10 fuel n ds := by
  induction fuel with
  | zero => intro n ds h; simpa [Nat.toDigitsCore] using h
  | succ f ih =>
    intro n ds h
    have hd : '\n' ∉ Nat.digitChar (n % 10) :: ds := by
      intro hmem
      rcases List.mem_cons.mp hmem with h1 | h1
      · exact digitChar_ne_newline _ h1.symm
      · exact h h1
    unfold Nat.toDigitsCore
    dsimp only
    split_ifs
    · exact hd
    · exact ih _ _ hd

theorem natRepr_no_newline (n : Nat) : '\n' ∉ (Nat.repr n).data := by
  unfold Nat.repr Nat.toDigits
  exact toDigitsCore_no_newline _ _ _ (by simp)

/-- The decimal representation of an `int` contains no newline. -/
theorem intToString_no_newline (n : Int) : '\n' ∉ (toString n).data := by
  cases n with
  | ofNat k => exact natRepr_no_newline k
  | negSucc k =>
    show '\n' ∉ ("-" ++ Nat.repr (Nat.succ k)).data
    rw [String.data_append]
    intro h
    rcases List.mem_append.mp h with h1 | h1
    · revert h1; decide
    · exact natRepr_no_newline _ h1

theorem splitLines_line (l : List Char) (hl : '\n' ∉ l) (rest cur : List Char) :
    splitLines (l ++ '\n' :: rest) cur =
      String.mk (cur.reverse ++ l) :: splitLines rest [] := by
  induction l generalizing cur with
  | nil => simp [splitLines]
  | cons a l ih =>
    have ha : a ≠ '\n' := fun h => hl (h ▸ List.mem_cons_self _ _)
    have hl2 : '\n' ∉ l := fun h => hl (List.mem_cons_of_mem _ h)
    simp [splitLines, ha, ih hl2]

/-- Splitting a text made of newline-free lines gives the lines back. -/
theorem lines_unlines (ls : List String) (h : ∀ l ∈ ls, '\n' ∉ l.data) :
    lines (unlines ls) = ls := by
  induction ls with
  | nil => rfl
  | cons l ls ih =>
    have h1 : '\n' ∉ l.data := h l (List.mem_cons_self _ _)
    have h2 : ∀ x ∈ ls, '\n' ∉ x.data := fun x hx => h x (List.mem_cons_of_mem _ hx)
    have e : (unlines (l :: ls)).data = l.data ++ '\n' :: (unlines ls).data := by
      simp [unlines, String.data_append]
    unfold lines at ih ⊢
    rw [e, splitLines_line l.data h1]
    simp [ih h2]

theorem append_no_newline (s t : String) (hs : '\n' ∉ s.data) (ht : '\n' ∉ t.data) :
    '\n' ∉ (s ++ t).data := by
  rw [String.data_append]
  intro h
  rcases List.mem_append.mp h with h1 | h1
  · exact hs h1
  · exact ht h1

theorem append_ne_empty (s t : String) (hs : s ≠ "") : s ++ t ≠ "" := by
  intro h
  apply hs
  have h2 := congrArg String.data h
  rw [String.data_append] at h2
  exact String.ext (List.append_eq_nil.mp h2).1

/-- A resolved identity is one of the three literals. -/
theorem identity_cases (k : Config) (c : String) (h : identity k = some c) :
    c = "Clang" ∨ c = "GCC" ∨ c = "MSVC" := by
  rcases k with ⟨a, b, x, d⟩
  revert h
  cases a <;> cases b <;> cases x <;> cases d <;> simp [identity, emitted, processed,
    processedFrom, compilerProbe, clangBranch, gccBranch, msvcBranch, Cond.eval,
    Config.isDefined] <;> intro h <;> simp [← h]

theorem identity_no_newline (k : Config) (c : String) (h : identity k = some c) :
    '\n' ∉ c.data := by
  rcases identity_cases k c h with h | h | h <;> subst h <;> decide

/-- The lines `main` writes, for any value of `compiler` and any results of the modules. -/
def mainLines (m : MathModule) (p : Unit → Int) (c : String) : List String :=
  [ "",
    "Hello from an autogenerated Zork project!",
    "The program is running with: " ++ c,
    "",
    "RESULT of 2 + 8 = " ++ toString (m.sum 2 8),
    "RESULT of 8 - 2 = " ++ toString (m.subtract 8 2),
    "RESULT of 2 * 8 = " ++ toString (m.multiply 2 8),
    "RESULT of 2 / 2 = " ++ toString (m.divide 2 2),
    "",
    "Testing interface module partitions, by just returning the number: " ++ toString (p ()) ]

/-- What `main` does to a state: `compiler` is kept, the lines of `mainLines` are appended to
`std::cout`, and four calls into `math` are made. -/
theorem main_eq (m : MathModule) (p : Unit → Int) (w : World) :
    main m p w =
      (0, { compiler := w.compiler
            cout := w.cout ++ unlines (mainLines m p w.compiler)
            calls := w.calls ++ [⟨MathOp.sum, 2, 8⟩, ⟨MathOp.subtract, 8, 2⟩,
              ⟨MathOp.multiply, 2, 8⟩, ⟨MathOp.divide, 2, 2⟩] }) := by
  simp only [main, World.put, World.putInt, World.endl, World.call, mainLines, unlines,
    List.append_assoc, Prod.mk.injEq, World.mk.injEq, true_and]
  refine ⟨?_, ?_⟩
  · apply String.ext
    simp only [String.data_append, List.append_assoc]
    rfl
  · simp

theorem output_eq (m : MathModule) (p : Unit → Int) (c : String) :
    output m p c = unlines (mainLines m p c) := by
  simp [output, main_eq, World.start]

theorem mainLines_no_newline (m : MathModule) (p : Unit → Int) (c : String)
    (hc : '\n' ∉ c.data) : ∀ l ∈ mainLines m p c, '\n' ∉ l.data := by
  intro l hl
  simp only [mainLines, List.mem_cons, List.mem_singleton, List.not_mem_nil, or_false] at hl
  rcases hl with h | h | h | h | h | h | h | h | h | h <;> subst h <;>
    first
      | decide
      | exact append_no_newline _ _ (by decide) hc
      | exact append_no_newline _ _ (by decide) (intToString_no_newline _)

/-- The lines of the output of `main` when `compiler` holds a newline-free string. -/
theorem lines_output (m : MathModule) (p : Unit → Int) (c : String) (hc : '\n' ∉ c.data) :
    lines (output m p c) = mainLines m p c := by
  rw [output_eq]
  exact lines_unlines _ (mainLines_no_newline m p c hc)

/-! ## The conditional: which group is processed -/

/-- C1: in every macro configuration the conditional of lines 2-11 processes at most one group;
it processes one, and `compiler` gets one of the identities "Clang", "GCC", "MSVC", exactly
when at least one of the four macros is defined; with none defined no group is processed and
`compiler` has no identity. -/
theorem compilerProbe_selects_one (k : Config) :
    selectedCount k ≤ 1 ∧
    (selectedCount k = 1 ↔ ∃ m, k.isDefined m = true) ∧
    ((∃ c ∈ ["Clang", "GCC", "MSVC"], identity k = some c) ↔ ∃ m, k.isDefined m = true) ∧
    ((¬ ∃ m, k.isDefined m = true) ↔ selectedCount k = 0 ∧ identity k = none) := by
  rcases k with ⟨a, b, c, d⟩
  cases a <;> cases b <;> cases c <;> cases d <;> decide

/-- C2 as stated fails: with `__clang__` and `_MSC_VER` both defined, the identity is "Clang",
not "MSVC". -/
theorem msvc_signal_not_sufficient :
    clangCl.isDefined Macro._MSC_VER = true ∧ identity clangCl = some "Clang" ∧
    ¬ (identity clangCl = some "MSVC" ∧ importDirectives clangCl = [Import.stdModule]) := by
  decide

/-- C2, amended: in every macro configuration in which `_MSC_VER` is defined and none of
`__clang__`, `__GNUC__`, `__GNUG__` is, the identity is "MSVC" and the import directive is
`import std;`. -/
theorem msvc_branch (k : Config) (hm : k.isDefined Macro._MSC_VER = true)
    (hc : k.isDefined Macro.__clang__ = false) (hg : k.isDefined Macro.__GNUC__ = false)
    (hgg : k.isDefined Macro.__GNUG__ = false) :
    identity k = some "MSVC" ∧ importDirectives k = [Import.stdModule] := by
  rcases k with ⟨a, b, c, d⟩
  simp only [Config.isDefined] at hm hc hg hgg
  subst hm hc hg hgg
  decide

theorem msvc_branch_witness :
    identity ⟨false, false, false, true⟩ = some "MSVC" ∧
    importDirectives ⟨false, false, false, true⟩ = [Import.stdModule] :=
  msvc_branch ⟨false, false, false, true⟩ rfl rfl rfl rfl

/-- C3: in every macro configuration in which `__clang__` is defined, the identity is "Clang"
and the import directive is `import std;`, whatever `__GNUC__`, `__GNUG__` and `_MSC_VER`
are. -/
theorem clang_branch (k : Config) (hc : k.isDefined Macro.__clang__ = true) :
    identity k = some "Clang" ∧ importDirectives k = [Import.stdModule] := by
  rcases k with ⟨a, b, c, d⟩
  simp only [Config.isDefined] at hc
  subst hc
  cases b <;> cases c <;> cases d <;> decide

theorem clang_branch_witness :
    identity ⟨true, true, true, true⟩ = some "Clang" ∧
    importDirectives ⟨true, true, true, true⟩ = [Import.stdModule] :=
  clang_branch ⟨true, true, true, true⟩ rfl

/-- C4: in every macro configuration that selects a group, exactly one import directive is
emitted; it is `import <iostream>;` exactly when the identity is "GCC", which is exactly when
`__GNUC__` or `__GNUG__` is defined and `__clang__` is not; it is `import std;` exactly when the
identity is "Clang" or "MSVC"; and configurations with the same identity get the same
directives. -/
theorem strategy_of_identity (k k2 : Config) (h : identity k ≠ none) :
    (importDirectives k).length = 1 ∧
    (importDirectives k = [Import.iostreamHeader] ↔ identity k = some "GCC") ∧
    (identity k = some "GCC" ↔
      (k.isDefined Macro.__GNUC__ = true ∨ k.isDefined Macro.__GNUG__ = true) ∧
        k.isDefined Macro.__clang__ = false) ∧
    (importDirectives k = [Import.stdModule] ↔
      identity k = some "Clang" ∨ identity k = some "MSVC") ∧
    (identity k2 = identity k → importDirectives k2 = importDirectives k) := by
  rcases k with ⟨a, b, c, d⟩
  rcases k2 with ⟨a2, b2, c2, d2⟩
  revert h
  cases a <;> cases b <;> cases c <;> cases d <;>
    cases a2 <;> cases b2 <;> cases c2 <;> cases d2 <;> decide

theorem strategy_of_identity_witness :
    (importDirectives ⟨false, true, false, true⟩).length = 1 ∧
    (importDirectives ⟨false, true, false, true⟩ = [Import.iostreamHeader] ↔
      identity ⟨false, true, false, true⟩ = some "GCC") ∧
    (identity ⟨false, true, false, true⟩ = some "GCC" ↔
      ((⟨false, true, false, true⟩ : Config).isDefined Macro.__GNUC__ = true ∨
        (⟨false, true, false, true⟩ : Config).isDefined Macro.__GNUG__ = true) ∧
        (⟨false, true, false, true⟩ : Config).isDefined Macro.__clang__ = false) ∧
    (importDirectives ⟨false, true, false, true⟩ = [Import.stdModule] ↔
      identity ⟨false, true, false, true⟩ = some "Clang" ∨
        identity ⟨false, true, false, true⟩ = some "MSVC") ∧
    (identity ⟨false, false, true, false⟩ = identity ⟨false, true, false, true⟩ →
      importDirectives ⟨false, false, true, false⟩ =
        importDirectives ⟨false, true, false, true⟩) :=
  strategy_of_identity ⟨false, true, false, true⟩ ⟨false, false, true, false⟩ (by decide)

/-! ## The output of `main` -/

/-- C5 as stated fails: the output for "Clang" is not a one-line greeting followed by the
other eight lines, since the text starts with a newline and so with an empty line. -/
theorem greeting_not_first_line :
    ¬ ∃ g : String, '\n' ∉ g.data ∧
      output math just_a_42 "Clang" =
        unlines [g, "The program is running with: Clang", "",
          "RESULT of 2 + 8 = 10", "RESULT of 8 - 2 = 6", "RESULT of 2 * 8 = 16",
          "RESULT of 2 / 2 = 1", "",
          "Testing interface module partitions, by just returning the number: 42"] := by
  rintro ⟨g, hg, h⟩
  have h1 := congrArg lines h
  rw [lines_output _ _ _ (by decide)] at h1
  rw [lines_unlines] at h1
  · have h2 := congrArg List.length h1
    simp [mainLines] at h2
  · intro l hl
    simp only [List.mem_cons, List.mem_singleton, List.not_mem_nil, or_false] at hl
    rcases hl with h | h | h | h | h | h | h | h | h <;> subst h <;> first | exact hg | decide

/-- C5, amended: for every value `c` of `compiler`, with the operations of `math` being
integer `+`, `-`, `*`, truncating `/` and `just_a_42` returning 42, the output of `main` is, in
this order and each newline-terminated: an empty line, the greeting line, the line
"The program is running with: " followed by `c`, an empty line, the four RESULT lines with
the values 10, 6, 16, 1, an empty line, and the partitions line with 42. -/
theorem output_text (m : MathModule) (p : Unit → Int) (c : String)
    (hsum : ∀ a b, m.sum a b = a + b) (hsub : ∀ a b, m.subtract a b = a - b)
    (hmul : ∀ a b, m.multiply a b = a * b) (hdiv : ∀ a b, m.divide a b = Int.tdiv a b)
    (hp : p () = 42) :
    output m p c =
      unlines ["", "Hello from an autogenerated Zork project!",
        "The program is running with: " ++ c, "",
        "RESULT of 2 + 8 = 10", "RESULT of 8 - 2 = 6", "RESULT of 2 * 8 = 16",
        "RESULT of 2 / 2 = 1", "",
        "Testing interface module partitions, by just returning the number: 42"] := by
  have e1 : toString ((2 : Int) + 8) = "10" := by decide
  have e2 : toString ((8 : Int) - 2) = "6" := by decide
  have e3 : toString ((2 : Int) * 8) = "16" := by decide
  have e4 : toString (Int.tdiv 2 2) = "1" := by decide
  have e5 : toString (42 : Int) = "42" := by decide
  have a1 : "RESULT of 2 + 8 = " ++ "10" = "RESULT of 2 + 8 = 10" := by decide
  have a2 : "RESULT of 8 - 2 = " ++ "6" = "RESULT of 8 - 2 = 6" := by decide
  have a3 : "RESULT of 2 * 8 = " ++ "16" = "RESULT of 2 * 8 = 16" := by decide
  have a4 : "RESULT of 2 / 2 = " ++ "1" = "RESULT of 2 / 2 = 1" := by decide
  have a5 : "Testing interface module partitions, by just returning the number: " ++ "42" =
      "Testing interface module partitions, by just returning the number: 42" := by decide
  rw [output_eq]
  unfold mainLines
  rw [hsum, hsub, hmul, hdiv, hp, e1, e2, e3, e4, e5, a1, a2, a3, a4, a5]

theorem output_text_witness :
    output math just_a_42 "GCC" =
      unlines ["", "Hello from an autogenerated Zork project!",
        "The program is running with: " ++ "GCC", "",
        "RESULT of 2 + 8 = 10", "RESULT of 8 - 2 = 6", "RESULT of 2 * 8 = 16",
        "RESULT of 2 / 2 = 1", "",
        "Testing interface module partitions, by just returning the number: 42"] :=
  output_text math just_a_42 "GCC" (fun _ _ => rfl) (fun _ _ => rfl) (fun _ _ => rfl)
    (fun _ _ => rfl) rfl

/-- C6 as stated fails: for the identity "Clang" the output has seven non-empty lines, not
six. -/
theorem content_lines_not_six :
    identity ⟨true, false, false, false⟩ = some "Clang" ∧
    (contentLines (output math just_a_42 "Clang")).length = 7 ∧
    (contentLines (output math just_a_42 "Clang")).length ≠ 6 := by
  refine ⟨by decide, ?_⟩
  have h : (contentLines (output math just_a_42 "Clang")).length = 7 := by
    unfold contentLines
    rw [lines_output _ _ _ (by decide)]
    decide
  rw [h]
  exact ⟨rfl, by decide⟩

/-- C6, amended: for every resolved identity, and whatever the modules return, `main` writes
exactly seven non-empty lines; the other lines it writes, three of its ten, are empty. -/
theorem content_lines_seven (k : Config) (c : String) (m : MathModule) (p : Unit → Int)
    (h : identity k = some c) :
    (contentLines (output m p c)).length = 7 ∧
    (blankLines (output m p c)).length = 3 ∧
    (lines (output m p c)).length = 10 := by
  have n0 : "The program is running with: " ++ c ≠ "" := append_ne_empty _ _ (by decide)
  have n1 : "RESULT of 2 + 8 = " ++ toString (m.sum 2 8) ≠ "" :=
    append_ne_empty _ _ (by decide)
  have n2 : "RESULT of 8 - 2 = " ++ toString (m.subtract 8 2) ≠ "" :=
    append_ne_empty _ _ (by decide)
  have n3 : "RESULT of 2 * 8 = " ++ toString (m.multiply 2 8) ≠ "" :=
    append_ne_empty _ _ (by decide)
  have n4 : "RESULT of 2 / 2 = " ++ toString (m.divide 2 2) ≠ "" :=
    append_ne_empty _ _ (by decide)
  have n5 : "Testing interface module partitions, by just returning the number: " ++
      toString (p ()) ≠ "" := append_ne_empty _ _ (by decide)
  unfold contentLines blankLines
  rw [lines_output _ _ _ (identity_no_newline k c h)]
  simp [mainLines, List.filter, n0, n1, n2, n3, n4, n5]

theorem content_lines_seven_witness :
    (contentLines (output math just_a_42 "MSVC")).length = 7 ∧
    (blankLines (output math just_a_42 "MSVC")).length = 3 ∧
    (lines (output math just_a_42 "MSVC")).length = 10 :=
  content_lines_seven ⟨false, false, false, true⟩ "MSVC" math just_a_42 (by decide)

/-- C7 as stated fails: for the identity "Clang" the output has three empty lines, at
positions 0, 3 and 8, and its first line is empty, not the greeting. -/
theorem blank_lines_not_two :
    identity ⟨true, true, false, false⟩ = some "Clang" ∧
    blankPositions (output math just_a_42 "Clang") = [0, 3, 8] ∧
    (lines (output math just_a_42 "Clang")).head? = some "" ∧
    ¬ ((blankLines (output math just_a_42 "Clang")).length = 2 ∧
      (lines (output math just_a_42 "Clang")).head? =
        some "Hello from an autogenerated Zork project!") := by
  refine ⟨by decide, ?_⟩
  unfold blankPositions blankLines
  rw [lines_output _ _ _ (by decide)]
  decide

/-- C7, amended: for every resolved identity, and whatever the modules return, the output of
`main` has exactly three empty lines: its first line, the line right after the
"The program is running with: ..." line, and the line right after the "RESULT of 2 / 2 = ..."
line; the greeting is the second line. -/
theorem blank_lines_three (k : Config) (c : String) (m : MathModule) (p : Unit → Int)
    (h : identity k = some c) :
    blankPositions (output m p c) = [0, 3, 8] ∧
    (lines (output m p c))[1]? = some "Hello from an autogenerated Zork project!" ∧
    (lines (output m p c))[2]? = some ("The program is running with: " ++ c) ∧
    (lines (output m p c))[7]? = some ("RESULT of 2 / 2 = " ++ toString (m.divide 2 2)) := by
  have n0 : "The program is running with: " ++ c ≠ "" := append_ne_empty _ _ (by decide)
  have n1 : "RESULT of 2 + 8 = " ++ toString (m.sum 2 8) ≠ "" :=
    append_ne_empty _ _ (by decide)
  have n2 : "RESULT of 8 - 2 = " ++ toString (m.subtract 8 2) ≠ "" :=
    append_ne_empty _ _ (by decide)
  have n3 : "RESULT of 2 * 8 = " ++ toString (m.multiply 2 8) ≠ "" :=
    append_ne_empty _ _ (by decide)
  have n4 : "RESULT of 2 / 2 = " ++ toString (m.divide 2 2) ≠ "" :=
    append_ne_empty _ _ (by decide)
  have n5 : "Testing interface module partitions, by just returning the number: " ++
      toString (p ()) ≠ "" := append_ne_empty _ _ (by decide)
  unfold blankPositions
  rw [lines_output _ _ _ (identity_no_newline k c h)]
  simp [mainLines, List.enum, List.enumFrom, List.filter, n0, n1, n2, n3, n4, n5]

theorem blank_lines_three_witness :
    blankPositions (output math just_a_42 "GCC") = [0, 3, 8] ∧
    (lines (output math just_a_42 "GCC"))[1]? =
      some "Hello from an autogenerated Zork project!" ∧
    (lines (output math just_a_42 "GCC"))[2]? = some ("The program is running with: " ++ "GCC") ∧
    (lines (output math just_a_42 "GCC"))[7]? =
      some ("RESULT of 2 / 2 = " ++ toString (math.divide 2 2)) :=
  blank_lines_three ⟨false, false, true, false⟩ "GCC" math just_a_42 (by decide)

/-! ## Calls, exit status, determinism -/

/-- C8: every call of `math::divide` made by `main`, whatever `compiler` holds and whatever the
modules return, has a nonzero second argument. -/
theorem divide_divisor_nonzero (m : MathModule) (p : Unit → Int) (c : String) (e : Call)
    (he : e ∈ divideCalls m p c) : e.b ≠ 0 := by
  have hd : divideCalls m p c = [⟨MathOp.divide, 2, 2⟩] := by
    simp [divideCalls, main_eq, World.start, List.filter]
  rw [hd, List.mem_singleton] at he
  subst he
  decide

theorem divide_divisor_nonzero_witness :
    (⟨MathOp.divide, 2, 2⟩ : Call) ∈ divideCalls math just_a_42 "Clang" ∧
    (⟨MathOp.divide, 2, 2⟩ : Call).b ≠ 0 :=
  have hmem : (⟨MathOp.divide, 2, 2⟩ : Call) ∈ divideCalls math just_a_42 "Clang" := by
    simp [divideCalls, main_eq, World.start, List.filter]
  ⟨hmem, divide_divisor_nonzero math just_a_42 "Clang" ⟨MathOp.divide, 2, 2⟩ hmem⟩

/-- C9: `main` returns exit status 0 from every state (so for every identity held by
`compiler`) and whatever the operations of `math` and `just_a_42` return. -/
theorem main_exit_status (m : MathModule) (p : Unit → Int) (w : World) :
    (main m p w).1 = 0 := by
  rw [main_eq]

/-- C10: two runs of `main` from states whose `compiler` holds the same identity return the
same exit status and append the same text to standard output, whatever was written before and
whatever calls were logged before; and each run leaves `compiler` as it found it. -/
theorem main_deterministic (m : MathModule) (p : Unit → Int) (w1 w2 : World)
    (h : w1.compiler = w2.compiler) :
    (main m p w1).1 = (main m p w2).1 ∧
    (∃ t, (main m p w1).2.cout = w1.cout ++ t ∧ (main m p w2).2.cout = w2.cout ++ t) ∧
    (main m p w1).2.compiler = w1.compiler ∧
    (main m p w2).2.compiler = w2.compiler := by
  refine ⟨by rw [main_eq, main_eq], ⟨unlines (mainLines m p w1.compiler), ?_, ?_⟩, ?_, ?_⟩
  · rw [main_eq]
  · rw [main_eq, h]
  · rw [main_eq]
  · rw [main_eq]

theorem main_deterministic_witness :
    (main math just_a_42 (World.start "GCC")).1 =
      (main math just_a_42 ⟨"GCC", "earlier output", []⟩).1 ∧
    (∃ t, (main math just_a_42 (World.start "GCC")).2.cout = (World.start "GCC").cout ++ t ∧
      (main math just_a_42 ⟨"GCC", "earlier output", []⟩).2.cout =
        (⟨"GCC", "earlier output", []⟩ : World).cout ++ t) ∧
    (main math just_a_42 (World.start "GCC")).2.compiler = (World.start "GCC").compiler ∧
    (main math just_a_42 ⟨"GCC", "earlier output", []⟩).2.compiler =
      (⟨"GCC", "earlier output", []⟩ : World).compiler :=
  main_deterministic math just_a_42 (World.start "GCC") ⟨"GCC", "earlier output", []⟩ rfl

end Zork
